import Mathlib

/-!
Verification of the storage-sentinel agent core against its specification.

The Go sources under internal/ are shallowly embedded:
* Go int64 values are modelled as Int, with explicit wrapping (wrap64) at
  the points where Go multiplication can overflow.
* Go time.Duration is an Int number of nanoseconds; database timestamps
  are Int numbers of seconds (the sqlite layer stores second-resolution
  datetimes and reads them back as unix seconds).
* Go float64 fields (temperatures, percent-used) are modelled as rationals;
  every comparison performed by the code on these fields is exact at the
  values the claims involve.
* The sqlite tables are lists of typed rows; each store method becomes a
  pure function on those lists, with sql.ErrNoRows modelled explicitly.
-/

namespace StorageSentinel

/-- Two to the 63rd, the magnitude bound of Go int64. -/
def int64Half : Int := 9223372036854775808

/-- Wrap an integer into the Go int64 range, as Go multiplication does on
overflow (two's-complement wraparound). -/
def wrap64 (n : Int) : Int :=
  (n + int64Half) % (2 * int64Half) - int64Half

/-- Numeric value of a list of decimal digit characters. -/
def digitsToNat (ds : List Char) : Nat :=
  ds.foldl (fun a c => a * 10 + (c.toNat - 48)) 0

/-- Go strconv.Atoi on a nonempty all-digits string: the value, unless it
overflows int64 (Atoi then returns an error). -/
def goAtoi (ds : List Char) : Option Int :=
  let n := digitsToNat ds
  if n ≤ 9223372036854775807 then some (n : Int) else none

/-- Nanoseconds in one second (Go time.Second). -/
def nsPerSecond : Int := 1000000000

/-- Nanoseconds in one minute (Go time.Minute). -/
def nsPerMinute : Int := 60000000000

/-- Nanoseconds in one hour (Go time.Hour). -/
def nsPerHour : Int := 3600000000000

/-! ## internal/scheduler/cron.go -/

/-- The anchored regular expression of ParseInterval:
a match of a nonempty digit string followed by a unit letter s, m, h or d
(regexp `^(\d+)([smhd])$`).  Returns the two capture groups. -/
def matchIntervalRe (cs : List Char) : Option (List Char × Char) :=
  match cs.getLast? with
  | none => none
  | some u =>
    let ds := cs.dropLast
    if ds ≠ [] ∧ ds.all Char.isDigit ∧ (u = 's' ∨ u = 'm' ∨ u = 'h' ∨ u = 'd') then
      some (ds, u)
    else none

/-- internal/scheduler/cron.go ParseInterval: parse `<N>[smhd]` into a
duration (nanoseconds).  Go computes time.Duration(value) * unit with int64
arithmetic, hence the wrap64 at each multiplication. -/
def ParseInterval (interval : String) : Option Int :=
  match matchIntervalRe interval.toList with
  | none => none
  | some (ds, u) =>
    match goAtoi ds with
    | none => none
    | some value =>
      if u = 's' then some (wrap64 (value * nsPerSecond))
      else if u = 'm' then some (wrap64 (value * nsPerMinute))
      else if u = 'h' then some (wrap64 (value * nsPerHour))
      else some (wrap64 (wrap64 (value * 24) * nsPerHour))

/-! ## internal/storage/sqlite.go : cloud_schedules -/

/-- A row of the cloud_schedules table. -/
structure CloudSchedule where
  id : String
  taskType : String
  scheduleType : String
  scheduleValue : String
  enabled : Bool
  updatedAt : Int
  deriving DecidableEq, Repr

/-- One step of the newest-row selection: keep the row with the larger
updated_at (the earlier row wins ties). -/
def pickSchedule (acc : Option CloudSchedule) (r : CloudSchedule) : Option CloudSchedule :=
  match acc with
  | none => some r
  | some b => if b.updatedAt < r.updatedAt then some r else some b

/-- GetScheduleForTask: SELECT ... WHERE task_type = ? AND enabled = 1
ORDER BY updated_at DESC LIMIT 1.  Models the query as picking a row of
maximal updated_at among the enabled rows for the task (ties resolved to
the earlier row; the claims do not depend on the tie order). -/
def GetScheduleForTask (tbl : List CloudSchedule) (taskType : String) : Option CloudSchedule :=
  (tbl.filter (fun r => r.taskType = taskType ∧ r.enabled)).foldl pickSchedule none

/-! ## internal/scheduler/scheduler.go : getEffectiveInterval -/

/-- internal/scheduler/scheduler.go getEffectiveInterval: merge the config
interval with the stored cloud schedule for the task.  A store error is out
of scope of the pure model (the code then also returns configInterval). -/
def getEffectiveInterval (tbl : List CloudSchedule) (taskType : String)
    (configInterval : Int) : Int :=
  match GetScheduleForTask tbl taskType with
  | none => configInterval
  | some cloudSchedule =>
    if ¬ cloudSchedule.enabled then configInterval
    else if cloudSchedule.scheduleType = "INTERVAL" then
      match ParseInterval cloudSchedule.scheduleValue with
      | none => configInterval
      | some cloudInterval =>
        if cloudInterval < configInterval then cloudInterval else configInterval
    else if cloudSchedule.scheduleType = "CRON" then
      let cloudInterval : Int := nsPerMinute
      if cloudInterval < configInterval then cloudInterval else configInterval
    else configInterval

/-! ## internal/storage/sqlite.go : rows -/

/-- A row of the disks table (struct Disk). -/
structure DiskRow where
  id : String
  name : String
  dtype : String
  model : String
  serial : String
  firmware : String
  sizeBytes : Int
  deriving DecidableEq, Repr

/-- A row of the alerts table (struct Alert). -/
structure AlertRow where
  id : Int
  severity : String
  sourceType : String
  sourceID : String
  subject : String
  message : String
  timestamp : Int
  acknowledged : Bool
  deriving DecidableEq, Repr

/-- A row of the smart_snapshots table (struct SmartSnapshot). -/
structure SmartRow where
  diskID : String
  healthStatus : String
  reallocated : Int
  pending : Int
  offlineUncorrect : Int
  crcErrors : Int
  temperatureC : ℚ
  powerOnHours : Int
  spinRetryCount : Int
  loadCycleCount : Int
  rawJSON : String
  timestamp : Int
  deriving DecidableEq, Repr

/-- A row of the nvme_snapshots table (struct NvmeSnapshot). -/
structure NvmeRow where
  diskID : String
  percentUsed : ℚ
  mediaErrors : Int
  errorLogEntries : Int
  powerOnHours : Int
  unsafeShutdowns : Int
  temperatureC : ℚ
  dataWrittenBytes : Int
  dataReadBytes : Int
  criticalWarningFlags : String
  rawOutput : String
  timestamp : Int
  deriving DecidableEq, Repr

/-- A row of the zfs_pools table (struct PoolStatus); the two nullable
columns are options. -/
structure PoolRow where
  name : String
  state : String
  lastScrubTime : Option Int
  lastScrubError : Option Int
  deriving DecidableEq, Repr

/-- A row of the zfs_pool_devices table. -/
structure PoolDeviceRow where
  poolName : String
  diskID : String
  vdevType : String
  deriving DecidableEq, Repr

/-- A row of the notification_queue table (struct NotificationQueueEntry). -/
structure QueueRow where
  id : Int
  alertID : Int
  channel : String
  status : String
  attempts : Int
  lastAttempt : Option Int
  nextRetry : Option Int
  errorMessage : Option String
  createdAt : Int
  sentAt : Option Int
  deriving DecidableEq, Repr

/-- The sql errors the embedded store code distinguishes. -/
inductive SqlErr where
  | errNoRows
  deriving DecidableEq, Repr

/-- The store-level errors surfaced to callers. -/
inductive StoreErr where
  | alertNotFound
  deriving DecidableEq, Repr

/-- db.QueryRow followed by Scan: an absent row surfaces as sql.ErrNoRows. -/
def sqlQueryRow {α : Type} (r : Option α) : Except SqlErr α :=
  match r with
  | some a => Except.ok a
  | none => Except.error SqlErr.errNoRows

/-! ## internal/storage/sqlite.go : single-row lookups -/

/-- GetDisk: SELECT ... FROM disks WHERE id=?; sql.ErrNoRows is mapped to
(nil, nil), i.e. a nil disk with no error. -/
def GetDisk (disks : List DiskRow) (id : String) : Except SqlErr (Option DiskRow) :=
  match sqlQueryRow (disks.find? (fun d => d.id = id)) with
  | Except.ok d => Except.ok (some d)
  | Except.error e =>
    match e with
    | SqlErr.errNoRows => Except.ok none

/-- GetAlert: SELECT ... FROM alerts WHERE id=?; sql.ErrNoRows is mapped to
(nil, nil). -/
def GetAlert (alerts : List AlertRow) (alertID : Int) : Except SqlErr (Option AlertRow) :=
  match sqlQueryRow (alerts.find? (fun a => a.id = alertID)) with
  | Except.ok a => Except.ok (some a)
  | Except.error e =>
    match e with
    | SqlErr.errNoRows => Except.ok none

/-- Stable insertion of a row into a timestamp-descending list: the model of
ORDER BY timestamp DESC (earlier-inserted rows stay first among equal
timestamps). -/
def insertByTsDesc {α : Type} (ts : α → Int) (a : α) : List α → List α
  | [] => [a]
  | b :: rest => if ts a ≤ ts b then b :: insertByTsDesc ts a rest else a :: b :: rest

/-- Sort a table by timestamp descending (model of ORDER BY timestamp DESC). -/
def sortByTsDesc {α : Type} (ts : α → Int) : List α → List α
  | [] => []
  | a :: rest => insertByTsDesc ts a (sortByTsDesc ts rest)

/-- SmartHistory: SELECT ... WHERE disk_id=? ORDER BY timestamp DESC LIMIT n. -/
def SmartHistory (snaps : List SmartRow) (diskID : String) (limit : Nat) : List SmartRow :=
  ((sortByTsDesc (fun s => s.timestamp) (snaps.filter (fun s => s.diskID = diskID)))).take limit

/-- NvmeHistory: SELECT ... WHERE disk_id=? ORDER BY timestamp DESC LIMIT n. -/
def NvmeHistory (snaps : List NvmeRow) (diskID : String) (limit : Nat) : List NvmeRow :=
  ((sortByTsDesc (fun s => s.timestamp) (snaps.filter (fun s => s.diskID = diskID)))).take limit

/-- LatestSmart: the LIMIT 1 query of the same shape; sql.ErrNoRows is
mapped to (nil, nil). -/
def LatestSmart (snaps : List SmartRow) (diskID : String) : Except SqlErr (Option SmartRow) :=
  match sqlQueryRow (SmartHistory snaps diskID 1).head? with
  | Except.ok s => Except.ok (some s)
  | Except.error e =>
    match e with
    | SqlErr.errNoRows => Except.ok none

/-- LatestNvme: the LIMIT 1 query of the same shape; sql.ErrNoRows is
mapped to (nil, nil). -/
def LatestNvme (snaps : List NvmeRow) (diskID : String) : Except SqlErr (Option NvmeRow) :=
  match sqlQueryRow (NvmeHistory snaps diskID 1).head? with
  | Except.ok s => Except.ok (some s)
  | Except.error e =>
    match e with
    | SqlErr.errNoRows => Except.ok none

/-! ## internal/storage/sqlite.go : AcknowledgeAlert -/

/-- AcknowledgeAlert: UPDATE alerts SET acknowledged = 1 WHERE id = ?; when
RowsAffected is zero the distinct error "alert not found" is returned.  On
success the new table is returned (the UPDATE touches no other column and
no other row). -/
def AcknowledgeAlert (alerts : List AlertRow) (alertID : Int) :
    Except StoreErr (List AlertRow) :=
  let rowsAffected := (alerts.filter (fun a => a.id = alertID)).length
  if rowsAffected = 0 then Except.error StoreErr.alertNotFound
  else Except.ok (alerts.map (fun a =>
    if a.id = alertID then { a with acknowledged := true } else a))

/-! ## internal/storage/sqlite.go : notification queue -/

/-- State of the notification_queue table together with the autoincrement
counter. -/
structure QueueState where
  rows : List QueueRow
  nextID : Int
  deriving DecidableEq, Repr

/-- EnqueueNotification: INSERT INTO notification_queue
(alert_id, channel, status, next_retry) VALUES (?, ?, 'pending',
datetime('now')); created_at defaults to now, attempts to 0, the other
columns to NULL. -/
def EnqueueNotification (s : QueueState) (now alertID : Int) (channel : String) :
    QueueState :=
  { rows := s.rows ++ [{
      id := s.nextID
      alertID := alertID
      channel := channel
      status := "pending"
      attempts := 0
      lastAttempt := none
      nextRetry := some now
      errorMessage := none
      createdAt := now
      sentAt := none }]
    nextID := s.nextID + 1 }

/-- MarkNotificationSent: UPDATE ... SET status = 'sent',
sent_at = datetime('now'), next_retry = NULL WHERE id = ?. -/
def MarkNotificationSent (s : QueueState) (now queueID : Int) : QueueState :=
  { s with rows := s.rows.map (fun r =>
      if r.id = queueID then
        { r with status := "sent", sentAt := some now, nextRetry := none }
      else r) }

/-- The row update of MarkNotificationFailed. -/
def failRowUpdate (now : Int) (errorMsg : String) (nextRetry : Int) (r : QueueRow) :
    QueueRow :=
  { r with
    status := "pending"
    attempts := r.attempts + 1
    lastAttempt := some now
    nextRetry := some nextRetry
    errorMessage := some errorMsg }

/-- MarkNotificationFailed: UPDATE ... SET status = 'pending',
attempts = attempts + 1, last_attempt = datetime('now'),
next_retry = datetime(?,'unixepoch'), error_message = ? WHERE id = ?. -/
def MarkNotificationFailed (s : QueueState) (now queueID : Int) (errorMsg : String)
    (nextRetry : Int) : QueueState :=
  { s with rows := s.rows.map (fun r =>
      if r.id = queueID then failRowUpdate now errorMsg nextRetry r else r) }

/-- The operations that ever write the notification_queue table. -/
inductive QueueOp where
  | enqueue (now alertID : Int) (channel : String)
  | markSent (now queueID : Int)
  | markFailed (now queueID : Int) (errorMsg : String) (nextRetry : Int)
  deriving DecidableEq, Repr

/-- Apply one queue operation. -/
def applyQueueOp (s : QueueState) : QueueOp → QueueState
  | QueueOp.enqueue now alertID channel => EnqueueNotification s now alertID channel
  | QueueOp.markSent now queueID => MarkNotificationSent s now queueID
  | QueueOp.markFailed now queueID errorMsg nextRetry =>
    MarkNotificationFailed s now queueID errorMsg nextRetry

/-- Apply a sequence of queue operations. -/
def applyQueueOps (s : QueueState) (ops : List QueueOp) : QueueState :=
  ops.foldl applyQueueOp s

/-- The freshly initialised notification_queue table. -/
def initialQueueState : QueueState := { rows := [], nextID := 1 }

/-! ## internal/storage/sqlite.go : UpsertPoolDevices -/

/-- The sql statements UpsertPoolDevices issues, in order: one DELETE for
the pool, then one INSERT per non-empty device id.  No transaction wraps
them: each is its own atomic step against the database. -/
inductive PDStmt where
  | deletePool (poolName : String)
  | insertDevice (poolName diskID vdevType : String)
  deriving DecidableEq, Repr

/-- The statement sequence of UpsertPoolDevices (empty device ids are
skipped by the loop). -/
def upsertPoolDevicesStmts (poolName : String) (deviceIDs : List String)
    (vdevType : String) : List PDStmt :=
  PDStmt.deletePool poolName ::
    (deviceIDs.filter (fun d => d ≠ "")).map
      (fun d => PDStmt.insertDevice poolName d vdevType)

/-- Execute one statement on the zfs_pool_devices table.  An INSERT that
violates the (pool_name, disk_id) primary key errors; UpsertPoolDevices
ignores that error and continues, so the table is left unchanged. -/
def execPDStmt (rows : List PoolDeviceRow) : PDStmt → List PoolDeviceRow
  | PDStmt.deletePool p => rows.filter (fun r => r.poolName ≠ p)
  | PDStmt.insertDevice p d v =>
    if rows.any (fun r => r.poolName = p ∧ r.diskID = d) then rows
    else rows ++ [{ poolName := p, diskID := d, vdevType := v }]

/-- Execute a statement sequence. -/
def execPDStmts (rows : List PoolDeviceRow) (stmts : List PDStmt) : List PoolDeviceRow :=
  stmts.foldl execPDStmt rows

/-- All database states observable at statement boundaries while the
sequence runs (the initial state included). -/
def pdStates (rows : List PoolDeviceRow) : List PDStmt → List (List PoolDeviceRow)
  | [] => [rows]
  | st :: rest => rows :: pdStates (execPDStmt rows st) rest

/-- UpsertPoolDevices as observed after all its statements ran. -/
def UpsertPoolDevices (rows : List PoolDeviceRow) (poolName : String)
    (deviceIDs : List String) (vdevType : String) : List PoolDeviceRow :=
  execPDStmts rows (upsertPoolDevicesStmts poolName deviceIDs vdevType)

/-- The device mapping of a pool as GetPoolDevices reads it. -/
def poolMapping (rows : List PoolDeviceRow) (poolName : String) : List String :=
  (rows.filter (fun r => r.poolName = poolName)).map (fun r => r.diskID)

/-- First-occurrence deduplication of a device-id list relative to the ids
already present: the effect of the (pool_name, disk_id) primary key on the
insert loop. -/
def dedupAcc (acc : List String) : List String → List String
  | [] => []
  | d :: rest => if d ∈ acc then dedupAcc acc rest else d :: dedupAcc (acc ++ [d]) rest

/-! ## internal/notifier/notifier.go : retry backoff -/

/-- The backoff sequence of calculateNextRetry, in seconds:
1 min, 5 min, 15 min, 1 h, 6 h, 24 h. -/
def backoffs : List Int := [60, 300, 900, 3600, 21600, 86400]

/-- calculateNextRetry: now plus the backoff at index `attempts`, the index
clamped to the last element.  Times are unix seconds (MarkNotificationFailed
persists nextRetry.Unix()).  `attempts` is the entry's stored counter and is
never negative (it starts at 0 and is only incremented). -/
def calculateNextRetry (now : Int) (attempts : Int) : Int :=
  let idx := if attempts ≥ 6 then 5 else attempts
  now + (backoffs.getD idx.toNat 0)

/-- One failed delivery of a queue entry, as processPendingNotifications
performs it: compute the next retry from the entry's current attempts
counter, then MarkNotificationFailed. -/
def deliveryFailure (s : QueueState) (now : Int) (entry : QueueRow) (errorMsg : String) :
    QueueState :=
  MarkNotificationFailed s now entry.id errorMsg (calculateNextRetry now entry.attempts)

/-- The same failure step tracked on a single row: the row after the worker
fails to deliver it at time `now`. -/
def rowFailure (now : Int) (errorMsg : String) (r : QueueRow) : QueueRow :=
  failRowUpdate now errorMsg (calculateNextRetry now r.attempts) r

/-- A row after a whole sequence of failed deliveries at the given times. -/
def rowFailures (errorMsg : String) (r : QueueRow) (times : List Int) : QueueRow :=
  times.foldl (fun cur t => rowFailure t errorMsg cur) r

/-! ## Go string primitives

The nvme smart-log parser works over ASCII tool output; the Go unicode
cases that differ (non-ASCII lowering, exotic space runes) never occur in
it, so the ASCII semantics used here coincide with Go's on every input the
parser sees. -/

/-- strings.ToLower (ASCII). -/
def lowerStr (s : String) : String := String.mk (s.toList.map Char.toLower)

/-- Split a character list at every character satisfying the separator
predicate (adjacent separators produce empty groups, as Go Split does). -/
def splitWhen (p : Char → Bool) : List Char → List (List Char)
  | [] => [[]]
  | c :: rest =>
    match splitWhen p rest with
    | [] => [[]]
    | g :: gs => if p c then [] :: g :: gs else (c :: g) :: gs

/-- strings.Split(s, "\n"). -/
def splitLines (s : String) : List String :=
  (splitWhen (fun c => c = '\n') s.toList).map String.mk

/-- unicode.IsSpace on the ASCII space runes. -/
def isGoSpace (c : Char) : Bool :=
  c = ' ' ∨ c = '\t' ∨ c = '\n' ∨ c = '\r' ∨ c = '\x0b' ∨ c = '\x0c'

/-- strings.Fields: split around runs of white space. -/
def goFields (s : String) : List String :=
  ((splitWhen isGoSpace s.toList).filter (fun f => f ≠ [])).map String.mk

/-- Drop the first n characters of a string. -/
def strDrop (s : String) (n : Nat) : String := String.mk (s.toList.drop n)

/-- Whether the first list starts the second. -/
def listIsPre : List Char → List Char → Bool
  | [], _ => true
  | _ :: _, [] => false
  | a :: as, b :: bs => a = b && listIsPre as bs

/-- Whether the second list occurs inside the first. -/
def listHasSub : List Char → List Char → Bool
  | [], sub => sub.isEmpty
  | c :: rest, sub => listIsPre sub (c :: rest) || listHasSub rest sub

/-- strings.Contains. -/
def containsSub (s sub : String) : Bool := listHasSub s.toList sub.toList

/-- strings.HasPrefix. -/
def startsWith (s pre : String) : Bool := listIsPre pre.toList s.toList

/-- strings.HasSuffix. -/
def endsWith (s suf : String) : Bool := listIsPre suf.toList.reverse s.toList.reverse

/-- Value of one hexadecimal digit character (either case). -/
def hexDigitVal (c : Char) : Option Nat :=
  if '0' ≤ c ∧ c ≤ '9' then some (c.toNat - 48)
  else if 'a' ≤ c ∧ c ≤ 'f' then some (c.toNat - 87)
  else if 'A' ≤ c ∧ c ≤ 'F' then some (c.toNat - 55)
  else none

/-- Value of one decimal digit character. -/
def decDigitVal (c : Char) : Option Nat :=
  if '0' ≤ c ∧ c ≤ '9' then some (c.toNat - 48) else none

/-- Accumulate digit values; none on the first invalid character. -/
def digitsValAux (digitVal : Char → Option Nat) (base : Nat) :
    Nat → List Char → Option Nat
  | acc, [] => some acc
  | acc, c :: cs =>
    match digitVal c with
    | none => none
    | some d => digitsValAux digitVal base (acc * base + d) cs

/-- Unsigned digit-string value; none when empty or invalid. -/
def digitsVal (digitVal : Char → Option Nat) (base : Nat) (cs : List Char) : Option Nat :=
  if cs = [] then none else digitsValAux digitVal base 0 cs

/-- strconv.ParseInt(s, base, 64): optional sign, at least one digit of the
base, magnitude within int64 (out-of-range input returns an error, which
every caller treats as no value). -/
def parseIntGo (digitVal : Char → Option Nat) (base : Nat) (s : String) : Option Int :=
  match s.toList with
  | '+' :: rest =>
    (digitsVal digitVal base rest).bind
      (fun n => if n ≤ 9223372036854775807 then some (n : Int) else none)
  | '-' :: rest =>
    (digitsVal digitVal base rest).bind
      (fun n => if n ≤ 9223372036854775808 then some (-(n : Int)) else none)
  | cs =>
    (digitsVal digitVal base cs).bind
      (fun n => if n ≤ 9223372036854775807 then some (n : Int) else none)

/-! ## internal/collectors/nvme.go : critical-warning parsing -/

/-- The first loop of extractHexValue over the fields of a matched line:
find a field with prefix 0x whose remainder parses as hex. -/
def findHexField (fields : List String) : Option Int :=
  fields.findSome? (fun field =>
    let fieldLower := lowerStr field
    if startsWith fieldLower "0x" then parseIntGo hexDigitVal 16 (strDrop fieldLower 2)
    else none)

/-- The second loop of extractHexValue: a decimal value following a ":"
field, or following a field that ends in ":". -/
def findColonValue : List String → Option Int
  | [] => none
  | field :: rest =>
    match rest.head? with
    | none => none
    | some next =>
      if field = ":" ∧ (parseIntGo decDigitVal 10 next).isSome then
        parseIntGo decDigitVal 10 next
      else if endsWith field ":" ∧ (parseIntGo decDigitVal 10 next).isSome then
        parseIntGo decDigitVal 10 next
      else findColonValue rest

/-- The line guard of extractHexValue: "critical_warning" anywhere, or the
keyword together with "warning". -/
def warnLineMatches (lineLower keyword : String) : Bool :=
  containsSub lineLower "critical_warning" ∨
    (containsSub lineLower keyword ∧ containsSub lineLower "warning")

/-- internal/collectors/nvme.go extractHexValue: scan the lines for a
critical-warning line and return the first hex (preferred) or post-colon
decimal value found on one; -1 when none is found. -/
def extractHexValue (output keyword : String) : Int :=
  match (splitLines output).findSome? (fun line =>
    let lineLower := lowerStr line
    if warnLineMatches lineLower keyword then
      match findHexField (goFields line) with
      | some v => some v
      | none => findColonValue (goFields line)
    else none) with
  | some v => v
  | none => -1

/-- The struct CriticalWarningFlags. -/
structure CriticalWarningFlags where
  availableSpareLow : Bool
  temperatureThresholdExceeded : Bool
  reliabilityDegraded : Bool
  readOnly : Bool
  deriving DecidableEq, Repr

/-- Bit test on the non-negative hex value ((hexValue & bit) != 0). -/
def flagBit (v : Int) (bit : Nat) : Bool := v.toNat.testBit bit

/-- internal/collectors/nvme.go parseCriticalWarnings, flag part: decode the
hex value when one was found (the authoritative source); otherwise the
conservative text fallback.  The ": 0" scan of the fallback only ever
re-assigns false over the zero-initialised flags, so it leaves them
unchanged. -/
def parseCriticalWarningsFlags (output : String) : CriticalWarningFlags :=
  let outputLower := lowerStr output
  let hexValue := extractHexValue output "critical"
  if hexValue ≥ 0 then
    { availableSpareLow := flagBit hexValue 0
      temperatureThresholdExceeded := flagBit hexValue 1
      reliabilityDegraded := flagBit hexValue 2
      readOnly := flagBit hexValue 3 }
  else if ¬ (containsSub outputLower "critical_warning" ∨
      containsSub outputLower "critical warning") then
    { availableSpareLow := containsSub outputLower "available spare" &&
        (containsSub outputLower "below" || containsSub outputLower "low") &&
        ! containsSub outputLower "available_spare_threshold"
      temperatureThresholdExceeded := (containsSub outputLower "temperature" &&
        containsSub outputLower "exceeded") &&
        ! containsSub outputLower "warning temperature time" &&
        ! containsSub outputLower "critical composite temperature time"
      reliabilityDegraded := containsSub outputLower "reliability" &&
        containsSub outputLower "degraded"
      readOnly := containsSub outputLower "read only" ||
        containsSub outputLower "read-only" }
  else
    { availableSpareLow := false
      temperatureThresholdExceeded := false
      reliabilityDegraded := false
      readOnly := false }

/-- Go bool formatting. -/
def goBool (b : Bool) : String := if b then "true" else "false"

/-- json.Marshal of CriticalWarningFlags (field order of the struct). -/
def jsonFlagsString (f : CriticalWarningFlags) : String :=
  "\x7b\"available_spare_low\":" ++ goBool f.availableSpareLow ++
    ",\"temperature_threshold_exceeded\":" ++ goBool f.temperatureThresholdExceeded ++
    ",\"reliability_degraded\":" ++ goBool f.reliabilityDegraded ++
    ",\"read_only\":" ++ goBool f.readOnly ++ "\x7d"

/-- parseCriticalWarnings: the flags, marshalled to their JSON string. -/
def parseCriticalWarnings (output : String) : String :=
  jsonFlagsString (parseCriticalWarningsFlags output)

/-- All sixteen flag combinations. -/
def allFlagCombos : List CriticalWarningFlags :=
  [false, true].flatMap (fun a =>
    [false, true].flatMap (fun b =>
      [false, true].flatMap (fun c =>
        [false, true].map (fun d =>
          { availableSpareLow := a
            temperatureThresholdExceeded := b
            reliabilityDegraded := c
            readOnly := d }))))

/-- json.Unmarshal of a CriticalWarningFlags value, restricted to the
canonical strings json.Marshal produces (the only flag strings the pipeline
ever stores); any other input yields no flags, as an unmarshal error makes
the evaluator skip the flag rules. -/
def jsonUnmarshalFlags (s : String) : Option CriticalWarningFlags :=
  allFlagCombos.find? (fun f => jsonFlagsString f = s)

/-! ## Go formatting primitives used by the health evaluator -/

/-- fmt %.1f on the evaluator's threshold values: round the magnitude to
tenths (half up; the thresholds carry at most one exact decimal digit, so
rounding questions do not arise) and print sign, whole part and one
fraction digit. -/
def fmtFloat1 (q : ℚ) : String :=
  let neg := q < 0
  let num10 : Nat := q.num.natAbs * 10
  let n : Nat := (num10 * 2 + q.den) / (2 * q.den)
  (if neg then "-" else "") ++ toString (n / 10) ++ "." ++ toString (n % 10)

/-- The digit loop of Go time.Duration formatting (fmtFrac): emit `prec`
fraction digits from the low end of `u`, omitting trailing zeros; returns
the digits accumulated so far, the remaining value, and whether any digit
was printed. -/
def fmtFracGo : Nat → Nat → Bool → List Char → (List Char × Nat × Bool)
  | 0, u, print, acc => (acc, u, print)
  | i + 1, u, print, acc =>
    let digit := u % 10
    let doPrint := print || decide (digit ≠ 0)
    let acc2 := if doPrint then Char.ofNat (48 + digit) :: acc else acc
    fmtFracGo i (u / 10) doPrint acc2

/-- The fraction part (with its period, or empty) that Go time.Duration
formatting prints, and the value divided down by 10^prec. -/
def fmtFrac (u prec : Nat) : String × Nat :=
  let (acc, u2, print) := fmtFracGo prec u false []
  (if print then String.mk ('.' :: acc) else "", u2)

/-- Go time.Duration.String: the %v rendering of a duration. -/
def goDurationString (d : Int) : String :=
  let u : Nat := d.natAbs
  let core :=
    if u < 1000000000 then
      if u = 0 then "0s"
      else if u < 1000 then toString u ++ "ns"
      else if u < 1000000 then
        let (frac, u2) := fmtFrac u 3
        toString u2 ++ frac ++ "µs"
      else
        let (frac, u2) := fmtFrac u 6
        toString u2 ++ frac ++ "ms"
    else
      let (frac, u1) := fmtFrac u 9
      let secPart := toString (u1 % 60) ++ frac ++ "s"
      let u2 := u1 / 60
      if u2 > 0 then
        let minPart := toString (u2 % 60) ++ "m" ++ secPart
        let u3 := u2 / 60
        if u3 > 0 then toString u3 ++ "h" ++ minPart else minPart
      else secPart
  if d < 0 then "-" ++ core else core

/-- Go int64 division (truncation toward zero). -/
def goDiv (a b : Int) : Int := Int.tdiv a b

/-- int64(d.Seconds()): the whole seconds of a duration.  (Exact for every
duration below float64 precision loss, which covers all configured
intervals.) -/
def durationSecondsInt (d : Int) : Int := goDiv d 1000000000

/-! ## internal/health/health.go -/

/-- config.AlertsConfig temperature thresholds (zero means unset and makes
the evaluator fall back to its defaults). -/
structure TemperatureThresholds where
  hddWarning : ℚ
  hddCritical : ℚ
  nvmeWarning : ℚ
  nvmeCritical : ℚ
  deriving DecidableEq, Repr

/-- The slice of config.AlertsConfig the evaluator reads. -/
structure AlertsConfig where
  temperatureThresholds : TemperatureThresholds
  deriving DecidableEq, Repr

/-- The slice of config.SchedulingConfig the evaluator reads (a duration in
nanoseconds). -/
structure SchedulingConfig where
  zfsScrubInterval : Int
  deriving DecidableEq, Repr

/-- types.Alert as the evaluator produces it. -/
structure Alert where
  timestamp : Int
  severity : String
  sourceType : String
  sourceID : String
  subject : String
  message : String
  deriving DecidableEq, Repr

/-- health.newAlert with the message already formatted (each call site
formats its own message below). -/
def newAlert (now : Int) (sev sourceType sourceID subject message : String) : Alert :=
  { timestamp := now
    severity := sev
    sourceType := sourceType
    sourceID := sourceID
    subject := subject
    message := message }

/-- types.DiskHealth. -/
structure DiskHealth where
  id : String
  name : String
  dtype : String
  status : String
  healthScore : Int
  issues : List String
  temperatureC : ℚ
  deriving DecidableEq, Repr

/-- types.PoolHealth. -/
structure PoolHealth where
  name : String
  state : String
  status : String
  healthScore : Int
  issues : List String
  deriving DecidableEq, Repr

/-- evaluateSmartDisk: the rule chain applied to a non-nvme disk, reading
the latest snapshot and a two-row history from the smart_snapshots table.
time.Now() is the explicit `now` parameter. -/
def evaluateSmartDisk (now : Int) (cfg : AlertsConfig) (snaps : List SmartRow)
    (d : DiskRow) (health : DiskHealth) (alerts : List Alert) :
    DiskHealth × List Alert :=
  match LatestSmart snaps d.id with
  | Except.error _ => (health, alerts)
  | Except.ok none => (health, alerts)
  | Except.ok (some snap) =>
    let health := { health with temperatureC := snap.temperatureC }
    let (health, alerts) :=
      if snap.healthStatus = "failed" then
        ({ health with
            healthScore := 10
            status := "critical"
            issues := health.issues ++ ["smart_failed"] },
          alerts ++ [newAlert now "critical" "disk" d.id "SMART FAILED"
            "SMART overall health failed"])
      else (health, alerts)
    let (health, alerts) :=
      if snap.offlineUncorrect > 0 then
        ({ health with
            healthScore := health.healthScore - 40
            status := "critical"
            issues := health.issues ++ ["offline_uncorrectable"] },
          alerts ++ [newAlert now "critical" "disk" d.id "Offline uncorrectable sectors"
            "Drive has uncorrectable sectors that cannot be recovered"])
      else (health, alerts)
    let (health, alerts) :=
      if snap.pending > 0 then
        ({ health with
            healthScore := health.healthScore - 30
            issues := health.issues ++ ["pending_sectors"] },
          alerts ++ [newAlert now "warning" "disk" d.id "Pending sectors"
            "Drive has sectors waiting to be reallocated"])
      else (health, alerts)
    let health :=
      if snap.reallocated > 0 then
        { health with
            healthScore := health.healthScore - 20
            issues := health.issues ++ ["reallocated_sectors"] }
      else health
    let hddWarning : ℚ :=
      if cfg.temperatureThresholds.hddWarning = 0 then 55
      else cfg.temperatureThresholds.hddWarning
    let hddCritical : ℚ :=
      if cfg.temperatureThresholds.hddCritical = 0 then 70
      else cfg.temperatureThresholds.hddCritical
    let (health, alerts) :=
      if snap.temperatureC > hddCritical then
        ({ health with
            healthScore := health.healthScore - 30
            status := "critical"
            issues := health.issues ++ ["temperature_critical"] },
          alerts ++ [newAlert now "critical" "disk" d.id "Critical temperature"
            ("Drive temperature is above " ++ fmtFloat1 hddCritical ++ "°C")])
      else if snap.temperatureC > hddWarning then
        ({ health with issues := health.issues ++ ["temperature_high"] },
          alerts ++ [newAlert now "warning" "disk" d.id "High temperature"
            ("Drive temperature is above " ++ fmtFloat1 hddWarning ++ "°C")])
      else (health, alerts)
    let history := SmartHistory snaps d.id 2
    let (health, alerts) :=
      match history with
      | curr :: prev :: _ =>
        let (health, alerts) :=
          if curr.reallocated > prev.reallocated then
            let increase := curr.reallocated - prev.reallocated
            ({ health with
                healthScore := health.healthScore - 15
                issues := health.issues ++ ["reallocated_increasing"] },
              alerts ++ [newAlert now "warning" "disk" d.id "Reallocated sectors increasing"
                ("Reallocated sectors increased by " ++ toString increase)])
          else (health, alerts)
        if curr.crcErrors > prev.crcErrors then
          let increase := curr.crcErrors - prev.crcErrors
          if increase > 10 then
            ({ health with issues := health.issues ++ ["crc_errors_increasing"] },
              alerts ++ [newAlert now "warning" "disk" d.id "CRC errors increasing"
                ("CRC errors increased by " ++ toString increase ++
                  " (possible cable/connection issue)")])
          else (health, alerts)
        else (health, alerts)
      | _ => (health, alerts)
    let health :=
      if snap.crcErrors > 0 then
        { health with issues := health.issues ++ ["crc_errors"] }
      else health
    let health :=
      if health.healthScore < 60 ∧ health.status ≠ "critical" then
        { health with status := "warning" }
      else health
    (health, alerts)

/-- The media-errors rule of evaluateNvmeDisk (health.go lines 286-296):
any media errors deduct 20 and tag the issue; more than ten raise a
critical alert, otherwise a warning alert. -/
def mediaErrorsStep (now : Int) (d : DiskRow) (snap : NvmeRow)
    (health : DiskHealth) (alerts : List Alert) : DiskHealth × List Alert :=
  if snap.mediaErrors > 0 then
    let health := { health with
        healthScore := health.healthScore - 20
        issues := health.issues ++ ["nvme_media_errors"] }
    if snap.mediaErrors > 10 then
      (health, alerts ++ [newAlert now "critical" "disk" d.id "NVMe media errors"
        ("Drive has " ++ toString snap.mediaErrors ++ " media errors")])
    else
      (health, alerts ++ [newAlert now "warning" "disk" d.id "NVMe media errors"
        ("Drive has " ++ toString snap.mediaErrors ++ " media errors")])
  else (health, alerts)

/-- evaluateNvmeDisk: the rule chain applied to an nvme disk. -/
def evaluateNvmeDisk (now : Int) (cfg : AlertsConfig) (snaps : List NvmeRow)
    (d : DiskRow) (health : DiskHealth) (alerts : List Alert) :
    DiskHealth × List Alert :=
  match LatestNvme snaps d.id with
  | Except.error _ => (health, alerts)
  | Except.ok none => (health, alerts)
  | Except.ok (some snap) =>
    let health := { health with temperatureC := snap.temperatureC }
    let nvmeWarning : ℚ :=
      if cfg.temperatureThresholds.nvmeWarning = 0 then 70
      else cfg.temperatureThresholds.nvmeWarning
    let nvmeCritical : ℚ :=
      if cfg.temperatureThresholds.nvmeCritical = 0 then 85
      else cfg.temperatureThresholds.nvmeCritical
    let (health, alerts) :=
      if snap.temperatureC > nvmeCritical then
        ({ health with
            healthScore := health.healthScore - 30
            status := "critical"
            issues := health.issues ++ ["temperature_critical"] },
          alerts ++ [newAlert now "critical" "disk" d.id "Critical temperature"
            ("Drive temperature is above " ++ fmtFloat1 nvmeCritical ++ "°C")])
      else if snap.temperatureC > nvmeWarning then
        ({ health with issues := health.issues ++ ["temperature_high"] },
          alerts ++ [newAlert now "warning" "disk" d.id "High temperature"
            ("Drive temperature is above " ++ fmtFloat1 nvmeWarning ++ "°C")])
      else (health, alerts)
    let (health, alerts) :=
      if snap.percentUsed ≥ 95 then
        ({ health with
            healthScore := 20
            status := "critical"
            issues := health.issues ++ ["nvme_wear_high"] },
          alerts ++ [newAlert now "critical" "disk" d.id "NVMe endurance high"
            "Percent used >=95"])
      else if snap.percentUsed ≥ 80 then
        ({ health with
            healthScore := 60
            status := "warning"
            issues := health.issues ++ ["nvme_wear_warning"] },
          alerts ++ [newAlert now "warning" "disk" d.id "NVMe endurance warning"
            "Percent used >=80"])
      else (health, alerts)
    let (health, alerts) := mediaErrorsStep now d snap health alerts
    let (health, alerts) :=
      if snap.criticalWarningFlags ≠ "" then
        match jsonUnmarshalFlags snap.criticalWarningFlags with
        | none => (health, alerts)
        | some flags =>
          let (health, alerts) :=
            if flags.availableSpareLow then
              ({ health with
                  healthScore := health.healthScore - 30
                  status := "critical"
                  issues := health.issues ++ ["nvme_spare_low"] },
                alerts ++ [newAlert now "critical" "disk" d.id "NVMe spare space low"
                  "Available spare space is below threshold"])
            else (health, alerts)
          let (health, alerts) :=
            if flags.temperatureThresholdExceeded then
              ({ health with
                  healthScore := health.healthScore - 25
                  status := "critical"
                  issues := health.issues ++ ["nvme_temp_threshold"] },
                alerts ++ [newAlert now "critical" "disk" d.id
                  "NVMe temperature threshold exceeded"
                  "Temperature is above or below threshold"])
            else (health, alerts)
          let (health, alerts) :=
            if flags.reliabilityDegraded then
              ({ health with
                  healthScore := health.healthScore - 40
                  status := "critical"
                  issues := health.issues ++ ["nvme_reliability_degraded"] },
                alerts ++ [newAlert now "critical" "disk" d.id "NVMe reliability degraded"
                  "Device reliability is degraded"])
            else (health, alerts)
          if flags.readOnly then
            ({ health with
                healthScore := 0
                status := "critical"
                issues := health.issues ++ ["nvme_read_only"] },
              alerts ++ [newAlert now "critical" "disk" d.id "NVMe read-only mode"
                "Device has entered read-only mode"])
          else (health, alerts)
      else (health, alerts)
    let history := NvmeHistory snaps d.id 2
    let (health, alerts) :=
      match history with
      | curr :: prev :: _ =>
        if curr.unsafeShutdowns > prev.unsafeShutdowns then
          let increase := curr.unsafeShutdowns - prev.unsafeShutdowns
          ({ health with issues := health.issues ++ ["unsafe_shutdowns_increased"] },
            alerts ++ [newAlert now "warning" "disk" d.id "Unsafe shutdowns increased"
              ("Unsafe shutdowns increased by " ++ toString increase)])
        else (health, alerts)
      | _ => (health, alerts)
    let health :=
      if health.healthScore < 60 ∧ health.status ≠ "critical" then
        { health with status := "warning" }
      else health
    (health, alerts)

/-- evaluateDisk: dispatch on disk type and clamp the score. -/
def evaluateDisk (now : Int) (cfg : AlertsConfig) (smartSnaps : List SmartRow)
    (nvmeSnaps : List NvmeRow) (d : DiskRow) : DiskHealth × List Alert :=
  let health : DiskHealth :=
    { id := d.id
      name := d.name
      dtype := d.dtype
      status := "ok"
      healthScore := 100
      issues := []
      temperatureC := 0 }
  let (health, alerts) :=
    if d.dtype = "nvme" then evaluateNvmeDisk now cfg nvmeSnaps d health []
    else evaluateSmartDisk now cfg smartSnaps d health []
  let health :=
    if health.healthScore < 0 then { health with healthScore := 0 } else health
  let health :=
    if health.healthScore = 100 ∧ health.issues = [] then
      { health with status := "ok" }
    else health
  (health, alerts)

/-- The pool-state rule of evaluatePool (state ≠ ONLINE and nonempty →
critical). -/
def poolStateStep (now : Int) (pool : PoolRow) (ha : PoolHealth × List Alert) :
    PoolHealth × List Alert :=
  let (health, alerts) := ha
  if pool.state ≠ "ONLINE" ∧ pool.state ≠ "" then
    ({ health with
        status := "critical"
        healthScore := 0
        issues := health.issues ++ ["pool_state_" ++ pool.state] },
      alerts ++ [newAlert now "critical" "pool" pool.name "Pool not healthy"
        ("ZFS pool state: " ++ pool.state)])
  else (health, alerts)

/-- The scrub-recency rule of evaluatePool: with a positive configured scrub
interval, warn when the pool was never scrubbed, or when the time since the
last scrub exceeds the interval (message carries the days overdue). -/
def poolScrubStep (now : Int) (schedulingCfg : SchedulingConfig) (pool : PoolRow)
    (ha : PoolHealth × List Alert) : PoolHealth × List Alert :=
  let (health, alerts) := ha
  if schedulingCfg.zfsScrubInterval > 0 then
    let lastScrubTime : Int :=
      match pool.lastScrubTime with
      | some t => t
      | none => 0
    if lastScrubTime > 0 then
      let intervalSeconds := durationSecondsInt schedulingCfg.zfsScrubInterval
      let timeSinceScrub := now - lastScrubTime
      if timeSinceScrub > intervalSeconds then
        let daysOverdue := goDiv (timeSinceScrub - intervalSeconds) (24 * 3600)
        ({ health with
            healthScore := health.healthScore - 20
            status := "warning"
            issues := health.issues ++ ["scrub_overdue"] },
          alerts ++ [newAlert now "warning" "pool" pool.name "Scrub overdue"
            ("Last scrub was " ++ toString daysOverdue ++ " days ago (interval: " ++
              goDurationString schedulingCfg.zfsScrubInterval ++ ")")])
      else (health, alerts)
    else
      ({ health with issues := health.issues ++ ["scrub_never"] },
        alerts ++ [newAlert now "warning" "pool" pool.name "Scrub never run"
          "Pool has never been scrubbed"])
  else (health, alerts)

/-- The scrub-errors rule of evaluatePool (more than 100 errors critical,
otherwise a warning). -/
def poolScrubErrorsStep (now : Int) (pool : PoolRow) (ha : PoolHealth × List Alert) :
    PoolHealth × List Alert :=
  let (health, alerts) := ha
  match pool.lastScrubError with
  | some errCount =>
    if errCount > 0 then
      if errCount > 100 then
        ({ health with
            healthScore := health.healthScore - 30
            status := "critical"
            issues := health.issues ++ ["scrub_errors_critical"] },
          alerts ++ [newAlert now "critical" "pool" pool.name "Scrub errors (critical)"
            ("Last scrub had " ++ toString errCount ++ " errors")])
      else
        ({ health with
            healthScore := health.healthScore - 15
            status := "warning"
            issues := health.issues ++ ["scrub_errors"] },
          alerts ++ [newAlert now "warning" "pool" pool.name "Scrub errors"
            ("Last scrub had " ++ toString errCount ++ " errors")])
    else (health, alerts)
  | none => (health, alerts)

/-- evaluatePool: pool state, scrub recency and scrub errors, applied in the
order of the source. -/
def evaluatePool (now : Int) (schedulingCfg : SchedulingConfig) (pool : PoolRow) :
    PoolHealth × List Alert :=
  let health : PoolHealth :=
    { name := pool.name
      state := pool.state
      status := "ok"
      healthScore := 100
      issues := [] }
  poolScrubErrorsStep now pool
    (poolScrubStep now schedulingCfg pool
      (poolStateStep now pool (health, [])))

/-! ## Concrete scenario inputs -/

/-- A non-nvme disk for the critical-temperature scenario. -/
def tempDisk : DiskRow :=
  { id := "disk-1", name := "sda", dtype := "hdd", model := "M", serial := "S",
    firmware := "F", sizeBytes := 1000 }

/-- Its latest smart snapshot: 72 °C, health passed, every counter zero. -/
def tempSnap : SmartRow :=
  { diskID := "disk-1", healthStatus := "passed", reallocated := 0, pending := 0,
    offlineUncorrect := 0, crcErrors := 0, temperatureC := 72, powerOnHours := 5,
    spinRetryCount := 0, loadCycleCount := 0, rawJSON := "", timestamp := 900 }

/-- The default temperature thresholds (hdd 55/70, nvme 70/85). -/
def defaultThresholds : AlertsConfig :=
  { temperatureThresholds :=
    { hddWarning := 55, hddCritical := 70, nvmeWarning := 70, nvmeCritical := 85 } }

/-- An nvme disk for the media-errors scenario. -/
def nvmeDisk : DiskRow :=
  { id := "nvme-1", name := "nvme0n1", dtype := "nvme", model := "M", serial := "S",
    firmware := "F", sizeBytes := 1000 }

/-- Its latest nvme snapshot, benign except for the given media-errors
count: temperature 30 °C, no wear, no flags. -/
def mediaSnap (m : Int) : NvmeRow :=
  { diskID := "nvme-1", percentUsed := 0, mediaErrors := m, errorLogEntries := 0,
    powerOnHours := 5, unsafeShutdowns := 0, temperatureC := 30,
    dataWrittenBytes := 0, dataReadBytes := 0, criticalWarningFlags := "",
    rawOutput := "", timestamp := 900 }

/-! # Theorems -/

/-- The schedule-picking fold only ever returns a value that was the initial
accumulator or an element of the folded list. -/
theorem pickFoldProp (P : CloudSchedule → Prop) :
    ∀ (l : List CloudSchedule) (acc : Option CloudSchedule),
      (∀ b, acc = some b → P b) → (∀ r ∈ l, P r) →
      ∀ sch, l.foldl pickSchedule acc = some sch → P sch := by
  intro l
  induction l with
  | nil =>
    intro acc hacc _ sch hfold
    exact hacc sch hfold
  | cons r rest ih =>
    intro acc hacc hmem sch hfold
    refine ih _ ?_ (fun x hx => hmem x (List.mem_cons_of_mem r hx)) sch hfold
    intro b hb
    cases acc with
    | none =>
      have hrb : r = b := by
        simpa [pickSchedule] using hb
      exact hrb ▸ hmem r (List.mem_cons_self r rest)
    | some b0 =>
      by_cases hlt : b0.updatedAt < r.updatedAt
      · have hrb : r = b := by
          simpa [pickSchedule, hlt] using hb
        exact hrb ▸ hmem r (List.mem_cons_self r rest)
      · have hrb : b0 = b := by
          simpa [pickSchedule, hlt] using hb
        exact hrb ▸ hacc b0 rfl

/-- GetScheduleForTask only returns enabled rows of the requested task. -/
theorem getScheduleForTask_enabled (tbl : List CloudSchedule) (task : String)
    (sch : CloudSchedule) (h : GetScheduleForTask tbl task = some sch) :
    sch.taskType = task ∧ sch.enabled = true := by
  refine pickFoldProp (fun r => r.taskType = task ∧ r.enabled = true)
    (tbl.filter (fun r => r.taskType = task ∧ r.enabled)) none
    (by intro b hb; cases hb) ?_ sch h
  intro r hr
  have := List.of_mem_filter hr
  simpa using this

/-- getEffectiveInterval unfolded under a successful enabled-schedule
lookup. -/
theorem getEffectiveInterval_eq_of_lookup (tbl : List CloudSchedule) (task : String)
    (config : Int) (sch : CloudSchedule) (h : GetScheduleForTask tbl task = some sch)
    (hen : sch.enabled = true) :
    getEffectiveInterval tbl task config =
      (if sch.scheduleType = "INTERVAL" then
        match ParseInterval sch.scheduleValue with
        | none => config
        | some cloudInterval =>
          if cloudInterval < config then cloudInterval else config
      else if sch.scheduleType = "CRON" then
        (if nsPerMinute < config then nsPerMinute else config)
      else config) := by
  unfold getEffectiveInterval
  rw [h]
  simp [hen]

/-- C1 (counterexample): the claim predicts an effective interval of one
minute for an enabled CRON cloud schedule, but with a 30-second config
interval the code returns 30 seconds (it takes the shorter of one minute
and the config interval). -/
theorem getEffectiveInterval_cron_not_one_minute :
    getEffectiveInterval
      [{ id := "s1", taskType := "SMART_COLLECT", scheduleType := "CRON",
         scheduleValue := "0 3 * * *", enabled := true, updatedAt := 100 }]
      "SMART_COLLECT" 30000000000 = 30000000000 ∧
    (30000000000 : Int) ≠ 60000000000 := by
  exact ⟨by decide, by decide⟩

/-- C1 (amended): the effective interval is min(config, cloud) for an
enabled INTERVAL schedule with a parseable value, min(config, 1 minute) for
an enabled CRON schedule, and the config interval when the schedule lookup
is empty (absent or disabled rows only), the type is unknown, or the value
fails to parse. -/
theorem getEffectiveInterval_spec (tbl : List CloudSchedule) (task : String)
    (config : Int) :
    (∀ sch, GetScheduleForTask tbl task = some sch →
      ((sch.scheduleType = "INTERVAL" →
        (∀ d, ParseInterval sch.scheduleValue = some d →
          getEffectiveInterval tbl task config = min config d) ∧
        (ParseInterval sch.scheduleValue = none →
          getEffectiveInterval tbl task config = config)) ∧
      (sch.scheduleType = "CRON" →
        getEffectiveInterval tbl task config = min config 60000000000) ∧
      (sch.scheduleType ≠ "INTERVAL" → sch.scheduleType ≠ "CRON" →
        getEffectiveInterval tbl task config = config))) ∧
    (GetScheduleForTask tbl task = none →
      getEffectiveInterval tbl task config = config) := by
  constructor
  · intro sch hsch
    have hen := (getScheduleForTask_enabled tbl task sch hsch).2
    have hunfold := getEffectiveInterval_eq_of_lookup tbl task config sch hsch hen
    refine ⟨?_, ?_, ?_⟩
    · intro hty
      constructor
      · intro d hd
        rw [hunfold, if_pos hty, hd]
        dsimp only
        rcases lt_or_le d config with hlt | hle
        · rw [if_pos hlt]
          omega
        · rw [if_neg (not_lt.mpr hle)]
          omega
      · intro hd
        rw [hunfold, if_pos hty, hd]
    · intro hty
      have hint : ¬ sch.scheduleType = "INTERVAL" := by
        rw [hty]
        decide
      rw [hunfold, if_neg hint, if_pos hty]
      have hmin : nsPerMinute = (60000000000 : Int) := by decide
      rw [hmin]
      rcases lt_or_le (60000000000 : Int) config with hlt | hle
      · rw [if_pos hlt]
        omega
      · rw [if_neg (not_lt.mpr hle)]
        omega
    · intro hint hcron
      rw [hunfold, if_neg hint, if_neg hcron]
  · intro hnone
    unfold getEffectiveInterval
    rw [hnone]

/-- C1 (witness): a concrete application of the amended characterization:
an enabled INTERVAL schedule of 5 minutes against a 10-minute config
interval yields 5 minutes. -/
theorem getEffectiveInterval_spec_witness :
    getEffectiveInterval
      [{ id := "s2", taskType := "ZFS_STATUS", scheduleType := "INTERVAL",
         scheduleValue := "5m", enabled := true, updatedAt := 7 }]
      "ZFS_STATUS" 600000000000 = min 600000000000 300000000000 :=
  (((getEffectiveInterval_spec
      [{ id := "s2", taskType := "ZFS_STATUS", scheduleType := "INTERVAL",
         scheduleValue := "5m", enabled := true, updatedAt := 7 }]
      "ZFS_STATUS" 600000000000).1
    { id := "s2", taskType := "ZFS_STATUS", scheduleType := "INTERVAL",
      scheduleValue := "5m", enabled := true, updatedAt := 7 }
    (by decide)).1 (by decide)).1 300000000000 (by decide)

/-- Failed deliveries accumulate one attempt each. -/
theorem rowFailures_attempts (msg : String) :
    ∀ (ts : List Int) (e : QueueRow),
      (rowFailures msg e ts).attempts = e.attempts + ts.length := by
  intro ts
  induction ts with
  | nil =>
    intro e
    simp [rowFailures]
  | cons t rest ih =>
    intro e
    have hstep : rowFailures msg e (t :: rest) =
        rowFailures msg (rowFailure t msg e) rest := rfl
    rw [hstep, ih]
    simp [rowFailure, failRowUpdate]
    omega

/-- The backoff index the code computes for a stored attempts counter `a`
equals `min a 5`. -/
theorem backoffIndex_eq (a : Nat) :
    ((if ((a : Int) ≥ 6) then (5 : Int) else (a : Int)).toNat) = min a 5 := by
  by_cases h : (a : Int) ≥ 6
  · rw [if_pos h]
    omega
  · rw [if_neg h]
    omega

/-- The next-retry value after the last of a nonempty run of failures. -/
theorem rowFailures_nextRetry (msg : String) :
    ∀ (ts : List Int) (e : QueueRow) (a : Nat), e.attempts = (a : Int) → ts ≠ [] →
      (rowFailures msg e ts).nextRetry =
        ts.getLast?.map (fun last => last + backoffs.getD (min (a + ts.length - 1) 5) 0) := by
  intro ts
  induction ts with
  | nil =>
    intro e a _ hne
    exact absurd rfl hne
  | cons t rest ih =>
    intro e a ha _
    have hstep : rowFailures msg e (t :: rest) =
        rowFailures msg (rowFailure t msg e) rest := rfl
    cases rest with
    | nil =>
      rw [hstep]
      simp only [rowFailures, List.foldl_nil, rowFailure, failRowUpdate,
        calculateNextRetry, List.getLast?_singleton, Option.map_some]
      rw [ha]
      congr 1
      have := backoffIndex_eq a
      simp only [ge_iff_le] at this ⊢
      rw [this]
      congr 1
    | cons t2 rest2 =>
      rw [hstep]
      have hatt : (rowFailure t msg e).attempts = ((a + 1 : Nat) : Int) := by
        simp [rowFailure, failRowUpdate, ha]
      rw [ih (rowFailure t msg e) (a + 1) hatt (by simp)]
      rw [List.getLast?_cons_cons]
      have hidx : a + 1 + (t2 :: rest2).length - 1 = a + (t :: t2 :: rest2).length - 1 := by
        simp only [List.length_cons]
        omega
      rw [hidx]

/-- C2: after the k-th failed delivery of a queue entry (k ≥ 1, entry
enqueued with attempts = 0), the scheduled next retry equals the time of
that failure plus the k-th element of the backoff sequence
{1m, 5m, 15m, 1h, 6h, 24h} (index min(k-1, 5): clamped to 24h once k
exceeds the sequence length), the attempts counter equals k, and every
single failure increments the stored attempts counter by exactly one. -/
theorem notifier_backoff_spec (msg : String) (e : QueueRow) (he : e.attempts = 0)
    (k : Nat) (hk : 1 ≤ k) (ts : List Int) (hlen : ts.length = k) :
    (rowFailures msg e ts).attempts = (k : Int) ∧
    (rowFailures msg e ts).nextRetry =
      ts.getLast?.map (fun last => last + backoffs.getD (min (k - 1) 5) 0) ∧
    (∀ (r : QueueRow) (t : Int) (m : String) (retry : Int),
      (failRowUpdate t m retry r).attempts = r.attempts + 1) := by
  have hne : ts ≠ [] := by
    intro hnil
    rw [hnil] at hlen
    simp at hlen
    omega
  refine ⟨?_, ?_, ?_⟩
  · rw [rowFailures_attempts, he, hlen]
    simp
  · rw [rowFailures_nextRetry msg ts e 0 he hne, hlen]
    simp
  · intro r t m retry
    simp [failRowUpdate]

/-- C2 (witness): a concrete entry failing twice, at times 100 and 200:
attempts reaches 2 and the retry scheduled after the second failure is
200 + 300 s (the second backoff element, 5 minutes). -/
theorem notifier_backoff_spec_witness :
    (rowFailures "dial error"
      { id := 1, alertID := 7, channel := "email", status := "pending",
        attempts := 0, lastAttempt := none, nextRetry := some 50,
        errorMessage := none, createdAt := 50, sentAt := none }
      [100, 200]).attempts = (2 : Int) ∧
    (rowFailures "dial error"
      { id := 1, alertID := 7, channel := "email", status := "pending",
        attempts := 0, lastAttempt := none, nextRetry := some 50,
        errorMessage := none, createdAt := 50, sentAt := none }
      [100, 200]).nextRetry =
      ([100, 200] : List Int).getLast?.map
        (fun last => last + backoffs.getD (min (2 - 1) 5) 0) := by
  have h := notifier_backoff_spec "dial error"
    { id := 1, alertID := 7, channel := "email", status := "pending",
      attempts := 0, lastAttempt := none, nextRetry := some 50,
      errorMessage := none, createdAt := 50, sentAt := none }
    (by decide) 2 (by decide) [100, 200] (by decide)
  exact ⟨h.1, h.2.1⟩

/-- C8: AcknowledgeAlert returns the distinct not-found error exactly when
no alert row with the id exists; when a row exists it succeeds, flips
acknowledged on the matching row and leaves every other row, and every
other field of the matching row, unchanged. -/
theorem acknowledgeAlert_spec (alerts : List AlertRow) (alertID : Int) :
    (AcknowledgeAlert alerts alertID = Except.error StoreErr.alertNotFound ↔
      ∀ a ∈ alerts, a.id ≠ alertID) ∧
    ((∃ a ∈ alerts, a.id = alertID) →
      AcknowledgeAlert alerts alertID =
        Except.ok (alerts.map (fun a =>
          if a.id = alertID then { a with acknowledged := true } else a))) ∧
    (∀ a : AlertRow, a.id ≠ alertID →
      (if a.id = alertID then { a with acknowledged := true } else a) = a) ∧
    (∀ a : AlertRow, a.id = alertID →
      (if a.id = alertID then { a with acknowledged := true } else a) =
        { id := a.id, severity := a.severity, sourceType := a.sourceType,
          sourceID := a.sourceID, subject := a.subject, message := a.message,
          timestamp := a.timestamp, acknowledged := true }) := by
  refine ⟨⟨?_, ?_⟩, ?_, ?_, ?_⟩
  · intro h
    unfold AcknowledgeAlert at h
    by_cases hc : (alerts.filter (fun a => a.id = alertID)).length = 0
    · intro a ha hid
      have hmem : a ∈ alerts.filter (fun a => a.id = alertID) :=
        List.mem_filter.mpr ⟨ha, by simp [hid]⟩
      have := List.length_pos_of_mem hmem
      omega
    · rw [if_neg hc] at h
      exact absurd h (by simp)
  · intro hnone
    unfold AcknowledgeAlert
    have hfilter : alerts.filter (fun a => a.id = alertID) = [] := by
      rw [List.filter_eq_nil_iff]
      intro a ha
      simp [hnone a ha]
    rw [hfilter]
    simp
  · intro hexists
    unfold AcknowledgeAlert
    obtain ⟨a, ha, hid⟩ := hexists
    have hmem : a ∈ alerts.filter (fun a => a.id = alertID) :=
      List.mem_filter.mpr ⟨ha, by simp [hid]⟩
    have := List.length_pos_of_mem hmem
    rw [if_neg (by omega)]
  · intro a hid
    rw [if_neg hid]
  · intro a hid
    rw [if_pos hid]

/-- C8 (witness): acknowledging id 2 in a two-row table succeeds and flips
only that row's flag. -/
theorem acknowledgeAlert_spec_witness :
    AcknowledgeAlert
      [{ id := 1, severity := "warning", sourceType := "disk", sourceID := "d1",
         subject := "s1", message := "m1", timestamp := 10, acknowledged := false },
       { id := 2, severity := "critical", sourceType := "pool", sourceID := "tank",
         subject := "s2", message := "m2", timestamp := 20, acknowledged := false }]
      2 =
      Except.ok
        [{ id := 1, severity := "warning", sourceType := "disk", sourceID := "d1",
           subject := "s1", message := "m1", timestamp := 10, acknowledged := false },
         { id := 2, severity := "critical", sourceType := "pool", sourceID := "tank",
           subject := "s2", message := "m2", timestamp := 20, acknowledged := true }] := by
  have h := (acknowledgeAlert_spec
    [{ id := 1, severity := "warning", sourceType := "disk", sourceID := "d1",
       subject := "s1", message := "m1", timestamp := 10, acknowledged := false },
     { id := 2, severity := "critical", sourceType := "pool", sourceID := "tank",
       subject := "s2", message := "m2", timestamp := 20, acknowledged := false }]
    2).2.1
    ⟨{ id := 2, severity := "critical", sourceType := "pool", sourceID := "tank",
       subject := "s2", message := "m2", timestamp := 20, acknowledged := false },
     by decide, by decide⟩
  rw [h]
  exact congrArg Except.ok (by decide)

/-- C10: the four single-row lookups return (nil, nil) — an ok empty value
and no error — when no row matches, rather than surfacing sql.ErrNoRows. -/
theorem lookups_absent_ok_none (disks : List DiskRow) (alerts : List AlertRow)
    (smarts : List SmartRow) (nvmes : List NvmeRow) (id : String) (alertID : Int) :
    ((∀ d ∈ disks, d.id ≠ id) → GetDisk disks id = Except.ok none) ∧
    ((∀ a ∈ alerts, a.id ≠ alertID) → GetAlert alerts alertID = Except.ok none) ∧
    ((∀ s ∈ smarts, s.diskID ≠ id) → LatestSmart smarts id = Except.ok none) ∧
    ((∀ s ∈ nvmes, s.diskID ≠ id) → LatestNvme nvmes id = Except.ok none) := by
  refine ⟨?_, ?_, ?_, ?_⟩
  · intro habs
    have hfind : disks.find? (fun d => d.id = id) = none := by
      rw [List.find?_eq_none]
      intro d hd
      simp [habs d hd]
    simp [GetDisk, hfind, sqlQueryRow]
  · intro habs
    have hfind : alerts.find? (fun a => a.id = alertID) = none := by
      rw [List.find?_eq_none]
      intro a ha
      simp [habs a ha]
    simp [GetAlert, hfind, sqlQueryRow]
  · intro habs
    have hfilter : smarts.filter (fun s => s.diskID = id) = [] := by
      rw [List.filter_eq_nil_iff]
      intro s hs
      simp [habs s hs]
    simp [LatestSmart, SmartHistory, hfilter, sortByTsDesc, sqlQueryRow]
  · intro habs
    have hfilter : nvmes.filter (fun s => s.diskID = id) = [] := by
      rw [List.filter_eq_nil_iff]
      intro s hs
      simp [habs s hs]
    simp [LatestNvme, NvmeHistory, hfilter, sortByTsDesc, sqlQueryRow]

/-- C10 (witness): every lookup over empty tables yields ok-none. -/
theorem lookups_absent_ok_none_witness :
    GetDisk [] "missing" = Except.ok none ∧
    GetAlert [] 42 = Except.ok none ∧
    LatestSmart [] "missing" = Except.ok none ∧
    LatestNvme [] "missing" = Except.ok none := by
  have h := lookups_absent_ok_none [] [] [] [] "missing" 42
  exact ⟨h.1 (by simp), h.2.1 (by simp), h.2.2.1 (by simp), h.2.2.2 (by simp)⟩

/-- One queue operation preserves the pending-or-sent status invariant. -/
theorem queueInvariantStep (s : QueueState)
    (hs : ∀ r ∈ s.rows, r.status = "pending" ∨ r.status = "sent") (op : QueueOp) :
    ∀ r ∈ (applyQueueOp s op).rows, r.status = "pending" ∨ r.status = "sent" := by
  intro r hr
  cases op with
  | enqueue now alertID channel =>
    simp only [applyQueueOp, EnqueueNotification, List.mem_append,
      List.mem_singleton] at hr
    rcases hr with h | h
    · exact hs r h
    · left
      rw [h]
  | markSent now queueID =>
    simp only [applyQueueOp, MarkNotificationSent, List.mem_map] at hr
    obtain ⟨r0, hr0, heq⟩ := hr
    by_cases hid : r0.id = queueID
    · rw [← heq, if_pos hid]
      right
      rfl
    · rw [← heq, if_neg hid]
      exact hs r0 hr0
  | markFailed now queueID errorMsg nextRetry =>
    simp only [applyQueueOp, MarkNotificationFailed, List.mem_map] at hr
    obtain ⟨r0, hr0, heq⟩ := hr
    by_cases hid : r0.id = queueID
    · rw [← heq, if_pos hid]
      left
      rfl
    · rw [← heq, if_neg hid]
      exact hs r0 hr0

/-- The invariant holds along any operation sequence. -/
theorem queueInvariantOps :
    ∀ (ops : List QueueOp) (s : QueueState),
      (∀ r ∈ s.rows, r.status = "pending" ∨ r.status = "sent") →
      ∀ r ∈ (applyQueueOps s ops).rows, r.status = "pending" ∨ r.status = "sent" := by
  intro ops
  induction ops with
  | nil =>
    intro s hs
    exact hs
  | cons op rest ih =>
    intro s hs
    exact ih (applyQueueOp s op) (queueInvariantStep s hs op)

/-- C9: from a fresh queue, any sequence of EnqueueNotification,
MarkNotificationSent and MarkNotificationFailed — the only writers of the
table — leaves every entry with status pending or sent; an enqueue creates
its entry pending with next_retry = now, and a failure re-marks the entry
pending (never failed), keeping it eligible for retry. -/
theorem notification_status_invariant (ops : List QueueOp) :
    (∀ r ∈ (applyQueueOps initialQueueState ops).rows,
      r.status = "pending" ∨ r.status = "sent") ∧
    (∀ (s : QueueState) (now alertID : Int) (channel : String),
      (EnqueueNotification s now alertID channel).rows =
        s.rows ++ [{ id := s.nextID, alertID := alertID, channel := channel,
                     status := "pending", attempts := 0, lastAttempt := none,
                     nextRetry := some now, errorMessage := none, createdAt := now,
                     sentAt := none }]) ∧
    (∀ (s : QueueState) (now queueID : Int) (r : QueueRow),
      r ∈ s.rows → r.id = queueID →
      ({ r with status := "sent", sentAt := some now, nextRetry := none } : QueueRow) ∈
        (MarkNotificationSent s now queueID).rows) ∧
    (∀ (t : Int) (m : String) (retry : Int) (r : QueueRow),
      (failRowUpdate t m retry r).status = "pending" ∧
      (failRowUpdate t m retry r).status ≠ "failed") := by
  refine ⟨?_, ?_, ?_, ?_⟩
  · exact queueInvariantOps ops initialQueueState (by intro r hr; cases hr)
  · intro s now alertID channel
    rfl
  · intro s now queueID r hr hid
    exact List.mem_map.mpr ⟨r, hr, by rw [if_pos hid]⟩
  · intro t m retry r
    exact ⟨rfl, by simp [failRowUpdate]⟩

/-- C9 (witness): after a concrete enqueue-then-fail run, the resulting
entry (attempts 1, retry scheduled) is still pending-or-sent. -/
theorem notification_status_invariant_witness :
    ({ id := 1, alertID := 1, channel := "email", status := "pending", attempts := 1,
       lastAttempt := some 40, nextRetry := some 100, errorMessage := some "boom",
       createdAt := 10, sentAt := none } : QueueRow).status = "pending" ∨
    ({ id := 1, alertID := 1, channel := "email", status := "pending", attempts := 1,
       lastAttempt := some 40, nextRetry := some 100, errorMessage := some "boom",
       createdAt := 10, sentAt := none } : QueueRow).status = "sent" :=
  (notification_status_invariant
    [QueueOp.enqueue 10 1 "email", QueueOp.markFailed 40 1 "boom" 100]).1
    { id := 1, alertID := 1, channel := "email", status := "pending", attempts := 1,
      lastAttempt := some 40, nextRetry := some 100, errorMessage := some "boom",
      createdAt := 10, sentAt := none }
    (by decide)

/-- C3 (counterexample): UpsertPoolDevices is not a single transaction: with
prior mapping ["a"] for pool p and new devices ["b", "c"], the state right
after its DELETE statement is observable and carries a mapping (the empty
one) that is neither the old nor the new mapping, contradicting the claimed
atomic replace. -/
theorem upsertPoolDevices_not_atomic :
    (pdStates [{ poolName := "p", diskID := "a", vdevType := "data" }]
        (upsertPoolDevicesStmts "p" ["b", "c"] "data")).get? 1 =
      some ([] : List PoolDeviceRow) ∧
    poolMapping ([] : List PoolDeviceRow) "p" ≠
      poolMapping [{ poolName := "p", diskID := "a", vdevType := "data" }] "p" ∧
    poolMapping ([] : List PoolDeviceRow) "p" ≠ ["b", "c"] := by
  refine ⟨by decide, by decide, by decide⟩

/-- Appending one row extends a pool's mapping exactly when the row belongs
to the pool. -/
theorem poolMapping_append_row (s : List PoolDeviceRow) (row : PoolDeviceRow)
    (p : String) :
    poolMapping (s ++ [row]) p =
      poolMapping s p ++ (if row.poolName = p then [row.diskID] else []) := by
  by_cases h : row.poolName = p
  · simp [poolMapping, List.filter_append, h]
  · simp [poolMapping, List.filter_append, h]

/-- The duplicate check of the insert loop coincides with membership in the
pool's current mapping. -/
theorem any_eq_mem_poolMapping (s : List PoolDeviceRow) (p d : String) :
    (s.any (fun r => r.poolName = p ∧ r.diskID = d)) = true ↔
      d ∈ poolMapping s p := by
  simp only [poolMapping, List.any_eq_true, List.mem_map, List.mem_filter,
    decide_eq_true_eq]
  constructor
  · rintro ⟨r, hr, hp, hd⟩
    exact ⟨r, ⟨hr, by simp [hp]⟩, hd⟩
  · rintro ⟨r, ⟨hr, hp⟩, hd⟩
    exact ⟨r, hr, by simpa using hp, hd⟩

/-- Folding the insert statements appends exactly the new ids that are not
yet mapped (first occurrence wins, matching the primary key). -/
theorem insertLoop_mapping (p v : String) :
    ∀ (es : List String) (s : List PoolDeviceRow),
      poolMapping (execPDStmts s (es.map (fun d => PDStmt.insertDevice p d v))) p =
        poolMapping s p ++ dedupAcc (poolMapping s p) es := by
  intro es
  induction es with
  | nil =>
    intro s
    simp [execPDStmts, dedupAcc]
  | cons e rest ih =>
    intro s
    have hstep :
        execPDStmts s ((e :: rest).map (fun d => PDStmt.insertDevice p d v)) =
          execPDStmts (execPDStmt s (PDStmt.insertDevice p e v))
            (rest.map (fun d => PDStmt.insertDevice p d v)) := rfl
    rw [hstep]
    by_cases hmem : e ∈ poolMapping s p
    · have hany : (s.any (fun r => r.poolName = p ∧ r.diskID = e)) = true :=
        (any_eq_mem_poolMapping s p e).mpr hmem
      have hexec : execPDStmt s (PDStmt.insertDevice p e v) = s := if_pos hany
      rw [hexec, ih]
      congr 1
      simp [dedupAcc, hmem]
    · have hany : ¬ ((s.any (fun r => r.poolName = p ∧ r.diskID = e)) = true) := by
        intro hcontra
        exact hmem ((any_eq_mem_poolMapping s p e).mp hcontra)
      have hexec : execPDStmt s (PDStmt.insertDevice p e v) =
          s ++ [{ poolName := p, diskID := e, vdevType := v }] := if_neg hany
      rw [hexec, ih, poolMapping_append_row]
      simp only [if_pos rfl]
      have hde : dedupAcc (poolMapping s p) (e :: rest) =
          e :: dedupAcc (poolMapping s p ++ [e]) rest := by
        simp [dedupAcc, hmem]
      rw [hde, List.append_assoc]
      rfl

/-- The insert statements of one pool never touch another pool's rows. -/
theorem insertLoop_other (p v : String) :
    ∀ (es : List String) (s : List PoolDeviceRow) (q : String), q ≠ p →
      (execPDStmts s (es.map (fun d => PDStmt.insertDevice p d v))).filter
          (fun r => r.poolName = q) =
        s.filter (fun r => r.poolName = q) := by
  intro es
  induction es with
  | nil =>
    intro s q _
    rfl
  | cons e rest ih =>
    intro s q hq
    have hstep :
        execPDStmts s ((e :: rest).map (fun d => PDStmt.insertDevice p d v)) =
          execPDStmts (execPDStmt s (PDStmt.insertDevice p e v))
            (rest.map (fun d => PDStmt.insertDevice p d v)) := rfl
    rw [hstep, ih _ q hq]
    by_cases hany : (s.any (fun r => r.poolName = p ∧ r.diskID = e)) = true
    · have hexec : execPDStmt s (PDStmt.insertDevice p e v) = s := if_pos hany
      rw [hexec]
    · have hexec : execPDStmt s (PDStmt.insertDevice p e v) =
          s ++ [{ poolName := p, diskID := e, vdevType := v }] := if_neg hany
      rw [hexec, List.filter_append]
      have : List.filter (fun r => decide (r.poolName = q))
          [({ poolName := p, diskID := e, vdevType := v } : PoolDeviceRow)] = [] := by
        simp [Ne.symm hq]
      rw [this, List.append_nil]

/-- Deleting a pool's rows empties its mapping. -/
theorem poolMapping_filter_ne (rows : List PoolDeviceRow) (p : String) :
    poolMapping (rows.filter (fun r => r.poolName ≠ p)) p = [] := by
  unfold poolMapping
  have : (rows.filter (fun r => r.poolName ≠ p)).filter (fun r => r.poolName = p)
      = [] := by
    rw [List.filter_eq_nil_iff]
    intro r hr
    have := List.of_mem_filter hr
    simp at this ⊢
    exact this
  rw [this]
  rfl

/-- pdStates always records the incoming state first. -/
theorem pdStates_head (s : List PoolDeviceRow) (l : List PDStmt) :
    (pdStates s l).head? = some s := by
  cases l <;> rfl

/-- C3 (amended): UpsertPoolDevices replaces a pool's mapping by a
non-transactional DELETE followed by per-device INSERTs, each its own
atomic statement.  After the whole sequence the pool maps to the new device
list (empty ids dropped, duplicates collapsed to their first occurrence)
and other pools' rows are untouched; but the state right after the DELETE —
in which the pool has no devices at all — is observable between statements,
so the replace is not atomic and an interruption there loses the prior
mapping. -/
theorem upsertPoolDevices_replace_spec (rows : List PoolDeviceRow) (p : String)
    (ds : List String) (v : String) :
    poolMapping (UpsertPoolDevices rows p ds v) p =
      dedupAcc [] (ds.filter (fun d => d ≠ "")) ∧
    (∀ q, q ≠ p →
      (UpsertPoolDevices rows p ds v).filter (fun r => r.poolName = q) =
        rows.filter (fun r => r.poolName = q)) ∧
    (pdStates rows (upsertPoolDevicesStmts p ds v)).get? 1 =
      some (rows.filter (fun r => r.poolName ≠ p)) ∧
    poolMapping (rows.filter (fun r => r.poolName ≠ p)) p = [] := by
  have hdel : execPDStmt rows (PDStmt.deletePool p) =
      rows.filter (fun r => r.poolName ≠ p) := rfl
  have hsplit : UpsertPoolDevices rows p ds v =
      execPDStmts (rows.filter (fun r => r.poolName ≠ p))
        ((ds.filter (fun d => d ≠ "")).map (fun d => PDStmt.insertDevice p d v)) := by
    unfold UpsertPoolDevices upsertPoolDevicesStmts
    rfl
  refine ⟨?_, ?_, ?_, poolMapping_filter_ne rows p⟩
  · rw [hsplit, insertLoop_mapping, poolMapping_filter_ne]
    rfl
  · intro q hq
    rw [hsplit, insertLoop_other p v _ _ q hq]
    rw [List.filter_filter]
    congr 1
    funext r
    by_cases h : r.poolName = q
    · have : r.poolName ≠ p := by
        rw [h]
        exact hq
      simp [h, this, hq]
    · simp [h]
  · have hgen : ∀ (l : List PDStmt),
        (pdStates rows (PDStmt.deletePool p :: l)).get? 1 =
          some (execPDStmt rows (PDStmt.deletePool p)) := by
      intro l
      cases l <;> rfl
    rw [show upsertPoolDevicesStmts p ds v = PDStmt.deletePool p ::
        (ds.filter (fun d => d ≠ "")).map (fun d => PDStmt.insertDevice p d v) from rfl]
    rw [hgen, hdel]

/-- C3 (witness): a concrete replace — old mapping ["a"] for pool p plus a
row of pool q — maps p to the deduplicated non-empty new ids and leaves
pool q's rows untouched. -/
theorem upsertPoolDevices_replace_spec_witness :
    poolMapping (UpsertPoolDevices
      [{ poolName := "p", diskID := "a", vdevType := "data" },
       { poolName := "q", diskID := "x", vdevType := "cache" }]
      "p" ["b", "", "c", "b"] "data") "p" =
      dedupAcc [] ((["b", "", "c", "b"] : List String).filter (fun d => d ≠ "")) ∧
    (UpsertPoolDevices
      [{ poolName := "p", diskID := "a", vdevType := "data" },
       { poolName := "q", diskID := "x", vdevType := "cache" }]
      "p" ["b", "", "c", "b"] "data").filter (fun r => r.poolName = "q") =
      ([{ poolName := "p", diskID := "a", vdevType := "data" },
        { poolName := "q", diskID := "x", vdevType := "cache" }] :
          List PoolDeviceRow).filter (fun r => r.poolName = "q") := by
  have h := upsertPoolDevices_replace_spec
    [{ poolName := "p", diskID := "a", vdevType := "data" },
     { poolName := "q", diskID := "x", vdevType := "cache" }]
    "p" ["b", "", "c", "b"] "data"
  exact ⟨h.1, h.2.1 "q" (by decide)⟩

/-- C4: a non-nvme disk whose latest smart snapshot reads 72 °C with all
counters zero, health passed and default thresholds evaluates to
status critical, health score 70, the single issue temperature_critical and
exactly one alert — critical, subject "Critical temperature". -/
theorem smart_critical_temperature_scenario :
    (evaluateDisk 1000 defaultThresholds [tempSnap] [] tempDisk).1.status =
      "critical" ∧
    (evaluateDisk 1000 defaultThresholds [tempSnap] [] tempDisk).1.healthScore = 70 ∧
    "temperature_critical" ∈
      (evaluateDisk 1000 defaultThresholds [tempSnap] [] tempDisk).1.issues ∧
    (evaluateDisk 1000 defaultThresholds [tempSnap] [] tempDisk).2 =
      [{ timestamp := 1000, severity := "critical", sourceType := "disk",
         sourceID := "disk-1", subject := "Critical temperature",
         message := "Drive temperature is above 70.0°C" }] := by
  refine ⟨by decide, by decide, by decide, by decide⟩

/-- C5: the media-errors rule of evaluateNvmeDisk: any positive count
deducts 20 from the health score and tags nvme_media_errors; a count above
ten emits one critical alert, a count in 1..10 one warning alert, and a
zero count emits nothing and deducts nothing.  The closing conjuncts
instantiate the rule inside the full evaluator on an otherwise benign nvme
disk with 12, 7 and 0 media errors. -/
theorem nvme_media_errors_rule (now : Int) (d : DiskRow) (snap : NvmeRow)
    (health : DiskHealth) (alerts : List Alert) :
    ((mediaErrorsStep now d snap health alerts).1.healthScore =
      health.healthScore - (if snap.mediaErrors > 0 then 20 else 0) ∧
    (mediaErrorsStep now d snap health alerts).1.issues =
      health.issues ++ (if snap.mediaErrors > 0 then ["nvme_media_errors"] else []) ∧
    (mediaErrorsStep now d snap health alerts).2 =
      alerts ++
        (if snap.mediaErrors > 10 then
          [newAlert now "critical" "disk" d.id "NVMe media errors"
            ("Drive has " ++ toString snap.mediaErrors ++ " media errors")]
        else if snap.mediaErrors > 0 then
          [newAlert now "warning" "disk" d.id "NVMe media errors"
            ("Drive has " ++ toString snap.mediaErrors ++ " media errors")]
        else [])) ∧
    (evaluateDisk 1000 defaultThresholds [] [mediaSnap 12] nvmeDisk).2 =
      [{ timestamp := 1000, severity := "critical", sourceType := "disk",
         sourceID := "nvme-1", subject := "NVMe media errors",
         message := "Drive has 12 media errors" }] ∧
    (evaluateDisk 1000 defaultThresholds [] [mediaSnap 7] nvmeDisk).2 =
      [{ timestamp := 1000, severity := "warning", sourceType := "disk",
         sourceID := "nvme-1", subject := "NVMe media errors",
         message := "Drive has 7 media errors" }] ∧
    (evaluateDisk 1000 defaultThresholds [] [mediaSnap 7] nvmeDisk).1.healthScore =
      80 ∧
    (evaluateDisk 1000 defaultThresholds [] [mediaSnap 0] nvmeDisk).2 = [] ∧
    (evaluateDisk 1000 defaultThresholds [] [mediaSnap 0] nvmeDisk).1.healthScore =
      100 := by
  refine ⟨?_, by decide, by decide, by decide, by decide, by decide⟩
  unfold mediaErrorsStep
  by_cases h0 : snap.mediaErrors > 0
  · by_cases h10 : snap.mediaErrors > 10
    · simp [h0, h10]
    · simp [h0, h10]
  · have h10 : ¬ snap.mediaErrors > 10 := by omega
    simp [h0, h10]

/-- C6: whenever extractHexValue finds a (non-negative) hex value on a
critical-warning line, parseCriticalWarnings decodes its bits 0..3 into the
four flags (bit 0 spare-low, bit 1 temperature-threshold, bit 2
reliability-degraded, bit 3 read-only); in particular a smart-log containing
"critical_warning : 0x0B" decodes to {true, true, false, true}. -/
theorem parseCriticalWarnings_hex_decode (output : String) (v : Int)
    (hv : extractHexValue output "critical" = v) (hpos : 0 ≤ v) :
    parseCriticalWarningsFlags output =
      { availableSpareLow := flagBit v 0
        temperatureThresholdExceeded := flagBit v 1
        reliabilityDegraded := flagBit v 2
        readOnly := flagBit v 3 } ∧
    parseCriticalWarningsFlags "critical_warning : 0x0B" =
      { availableSpareLow := true
        temperatureThresholdExceeded := true
        reliabilityDegraded := false
        readOnly := true } := by
  constructor
  · unfold parseCriticalWarningsFlags
    rw [hv]
    rw [if_pos hpos]
  · decide

/-- C6 (witness): the characterization applied at the 0x0B input itself. -/
theorem parseCriticalWarnings_hex_decode_witness :
    parseCriticalWarningsFlags "critical_warning : 0x0B" =
      { availableSpareLow := flagBit 11 0
        temperatureThresholdExceeded := flagBit 11 1
        reliabilityDegraded := flagBit 11 2
        readOnly := flagBit 11 3 } :=
  (parseCriticalWarnings_hex_decode "critical_warning : 0x0B" 11
    (by decide) (by decide)).1

/-- The scrub-errors step only appends alerts. -/
theorem poolScrubErrorsStep_alerts_mono (now : Int) (pool : PoolRow)
    (ha : PoolHealth × List Alert) (a : Alert) (hmem : a ∈ ha.2) :
    a ∈ (poolScrubErrorsStep now pool ha).2 := by
  obtain ⟨health, alerts⟩ := ha
  unfold poolScrubErrorsStep
  cases hles : pool.lastScrubError with
  | none => simpa using hmem
  | some errCount =>
    by_cases h0 : errCount > 0
    · by_cases h100 : errCount > 100
      · simp only [if_pos h0, if_pos h100]
        exact List.mem_append_left _ hmem
      · simp only [if_pos h0, if_neg h100]
        exact List.mem_append_left _ hmem
    · simp only [if_neg h0]
      exact hmem

/-- The scrub-errors step only appends issues. -/
theorem poolScrubErrorsStep_issues_mono (now : Int) (pool : PoolRow)
    (ha : PoolHealth × List Alert) (i : String) (hmem : i ∈ ha.1.issues) :
    i ∈ (poolScrubErrorsStep now pool ha).1.issues := by
  obtain ⟨health, alerts⟩ := ha
  unfold poolScrubErrorsStep
  cases hles : pool.lastScrubError with
  | none => simpa using hmem
  | some errCount =>
    by_cases h0 : errCount > 0
    · by_cases h100 : errCount > 100
      · simp only [if_pos h0, if_pos h100]
        exact List.mem_append_left _ hmem
      · simp only [if_pos h0, if_neg h100]
        exact List.mem_append_left _ hmem
    · simp only [if_neg h0]
      exact hmem

/-- The never-scrubbed branch of the scrub-recency rule. -/
theorem poolScrubStep_never (now : Int) (cfg : SchedulingConfig) (pool : PoolRow)
    (ha : PoolHealth × List Alert) (hint : cfg.zfsScrubInterval > 0)
    (hnever : pool.lastScrubTime = none) :
    (poolScrubStep now cfg pool ha).1.issues = ha.1.issues ++ ["scrub_never"] ∧
    (poolScrubStep now cfg pool ha).2 = ha.2 ++
      [newAlert now "warning" "pool" pool.name "Scrub never run"
        "Pool has never been scrubbed"] := by
  obtain ⟨health, alerts⟩ := ha
  unfold poolScrubStep
  rw [hnever]
  simp only [if_pos hint]
  norm_num

/-- The overdue branch of the scrub-recency rule: the alert message states
the number of days overdue. -/
theorem poolScrubStep_overdue (now : Int) (cfg : SchedulingConfig) (pool : PoolRow)
    (t : Int) (ha : PoolHealth × List Alert) (hint : cfg.zfsScrubInterval > 0)
    (ht : pool.lastScrubTime = some t) (htpos : 0 < t)
    (hover : now - t > durationSecondsInt cfg.zfsScrubInterval) :
    (poolScrubStep now cfg pool ha).1.issues = ha.1.issues ++ ["scrub_overdue"] ∧
    (poolScrubStep now cfg pool ha).2 = ha.2 ++
      [newAlert now "warning" "pool" pool.name "Scrub overdue"
        ("Last scrub was " ++
          toString (goDiv (now - t - durationSecondsInt cfg.zfsScrubInterval)
            (24 * 3600)) ++
          " days ago (interval: " ++ goDurationString cfg.zfsScrubInterval ++ ")")] := by
  obtain ⟨health, alerts⟩ := ha
  unfold poolScrubStep
  rw [ht]
  simp only [if_pos hint, if_pos htpos, if_pos hover]
  norm_num

/-- C7: with a positive zfs_scrub_interval, a pool that has never been
scrubbed gets the issue scrub_never plus a warning alert "Scrub never run";
a pool whose time-since-last-scrub exceeds the interval gets the issue
scrub_overdue plus a warning alert "Scrub overdue" whose message states the
number of days overdue. -/
theorem evaluatePool_scrub_warnings (now : Int) (cfg : SchedulingConfig)
    (pool : PoolRow) (hint : cfg.zfsScrubInterval > 0) :
    (pool.lastScrubTime = none →
      "scrub_never" ∈ (evaluatePool now cfg pool).1.issues ∧
      newAlert now "warning" "pool" pool.name "Scrub never run"
        "Pool has never been scrubbed" ∈ (evaluatePool now cfg pool).2) ∧
    (∀ t, pool.lastScrubTime = some t → 0 < t →
      now - t > durationSecondsInt cfg.zfsScrubInterval →
      "scrub_overdue" ∈ (evaluatePool now cfg pool).1.issues ∧
      newAlert now "warning" "pool" pool.name "Scrub overdue"
        ("Last scrub was " ++
          toString (goDiv (now - t - durationSecondsInt cfg.zfsScrubInterval)
            (24 * 3600)) ++
          " days ago (interval: " ++ goDurationString cfg.zfsScrubInterval ++ ")")
        ∈ (evaluatePool now cfg pool).2) := by
  constructor
  · intro hnever
    have hstep := poolScrubStep_never now cfg pool
      (poolStateStep now pool
        ({ name := pool.name, state := pool.state, status := "ok",
           healthScore := 100, issues := [] }, [])) hint hnever
    have hmemi : "scrub_never" ∈ (poolScrubStep now cfg pool
        (poolStateStep now pool
          ({ name := pool.name, state := pool.state, status := "ok",
             healthScore := 100, issues := [] }, []))).1.issues := by
      rw [hstep.1]
      exact List.mem_append_right _ (List.mem_singleton.mpr rfl)
    have hmema : newAlert now "warning" "pool" pool.name "Scrub never run"
        "Pool has never been scrubbed" ∈ (poolScrubStep now cfg pool
        (poolStateStep now pool
          ({ name := pool.name, state := pool.state, status := "ok",
             healthScore := 100, issues := [] }, []))).2 := by
      rw [hstep.2]
      exact List.mem_append_right _ (List.mem_singleton.mpr rfl)
    exact ⟨poolScrubErrorsStep_issues_mono now pool _ _ hmemi,
      poolScrubErrorsStep_alerts_mono now pool _ _ hmema⟩
  · intro t ht htpos hover
    have hstep := poolScrubStep_overdue now cfg pool t
      (poolStateStep now pool
        ({ name := pool.name, state := pool.state, status := "ok",
           healthScore := 100, issues := [] }, [])) hint ht htpos hover
    have hmemi : "scrub_overdue" ∈ (poolScrubStep now cfg pool
        (poolStateStep now pool
          ({ name := pool.name, state := pool.state, status := "ok",
             healthScore := 100, issues := [] }, []))).1.issues := by
      rw [hstep.1]
      exact List.mem_append_right _ (List.mem_singleton.mpr rfl)
    have hmema : newAlert now "warning" "pool" pool.name "Scrub overdue"
        ("Last scrub was " ++
          toString (goDiv (now - t - durationSecondsInt cfg.zfsScrubInterval)
            (24 * 3600)) ++
          " days ago (interval: " ++ goDurationString cfg.zfsScrubInterval ++ ")")
        ∈ (poolScrubStep now cfg pool
        (poolStateStep now pool
          ({ name := pool.name, state := pool.state, status := "ok",
             healthScore := 100, issues := [] }, []))).2 := by
      rw [hstep.2]
      exact List.mem_append_right _ (List.mem_singleton.mpr rfl)
    exact ⟨poolScrubErrorsStep_issues_mono now pool _ _ hmemi,
      poolScrubErrorsStep_alerts_mono now pool _ _ hmema⟩

/-- C7 (witness): pool tank, ONLINE, last scrubbed 40 days before `now`
with a 30-day interval: the evaluation carries scrub_overdue and the
"Scrub overdue" warning alert whose message carries the 10 days overdue. -/
theorem evaluatePool_scrub_warnings_witness :
    "scrub_overdue" ∈ (evaluatePool 3456100
      { zfsScrubInterval := 2592000000000000 }
      { name := "tank", state := "ONLINE", lastScrubTime := some 100,
        lastScrubError := none }).1.issues ∧
    newAlert 3456100 "warning" "pool" "tank" "Scrub overdue"
      ("Last scrub was " ++
        toString (goDiv (3456100 - 100 - durationSecondsInt 2592000000000000)
          (24 * 3600)) ++
        " days ago (interval: " ++ goDurationString 2592000000000000 ++ ")")
      ∈ (evaluatePool 3456100
        { zfsScrubInterval := 2592000000000000 }
        { name := "tank", state := "ONLINE", lastScrubTime := some 100,
          lastScrubError := none }).2 :=
  (evaluatePool_scrub_warnings 3456100
    { zfsScrubInterval := 2592000000000000 }
    { name := "tank", state := "ONLINE", lastScrubTime := some 100,
      lastScrubError := none }
    (by decide)).2 100 rfl (by decide) (by decide)

end StorageSentinel
